import Mathlib

/-!
Shallow embedding of the smartaquarium backend (src/api/models.py and
src/api/views.py).

The three Django models become record types; the database becomes a
`Store` of row lists plus per-table autoincrement counters.  Timestamps
are naturals supplied by the caller as the current server time `now`
(Django's `auto_now` / `auto_now_add` fields).  Python floats carry no
rounding-relevant arithmetic here, so numeric field values are rationals.
Request bodies are modelled post-JSON-parse: `none` stands for a body on
which `json.loads` (or attribute access on the result) raises, and a
field value is a `JVal` recording whether Python `float(.)` succeeds on it.
-/

/-- A JSON value supplied for a numeric field: either a value on which
Python `float(.)` succeeds, carrying the numeric result, or one on which
`float(.)` raises (`null`, non-numeric strings, objects, ...). -/
inductive JVal where
  | num (x : ℚ)
  | nonNum
deriving DecidableEq

/-- One row of `SensorData` (models.py lines 4-15): temperature, humidity,
and an `auto_now_add` timestamp; `id` is the autoincrement primary key. -/
structure SensorRow where
  id : ℕ
  temperature : ℚ
  humidity : ℚ
  timestamp : ℕ
deriving DecidableEq

/-- One row of `DeviceControl` (models.py lines 18-34): a device name
(`'fan'` or `'heater'` by choice list), an on/off flag, and an `auto_now`
timestamp.  `Meta.unique_together = ('device',)`. -/
structure DeviceRow where
  id : ℕ
  device : String
  is_on : Bool
  last_updated : ℕ
deriving DecidableEq

/-- One row of `TemperatureSetpoint` (models.py lines 37-49). -/
structure SetpointRow where
  id : ℕ
  setpoint_temperature : ℚ
  created_by : Option ℕ
  created_at : ℕ
  updated_at : ℕ
  is_active : Bool
deriving DecidableEq

/-- The persistent store: the three tables plus their autoincrement
counters. -/
structure Store where
  sensors : List SensorRow
  devices : List DeviceRow
  setpoints : List SetpointRow
  nextSensorId : ℕ
  nextDeviceId : ℕ
  nextSetpointId : ℕ
deriving DecidableEq

/-- Model of `queryset.first()` under `ORDER BY key DESC`: an element of maximal
key.  The order of rows sharing a key is backend-unspecified in the
source (no secondary sort column), so theorems below only rely on this
where the maximum is strict; this executable version keeps the earlier
row on ties. -/
def firstMaxBy (key : α → ℕ) : List α → Option α
  | [] => none
  | a :: rest =>
    match firstMaxBy key rest with
    | none => some a
    | some b => if key a < key b then some b else some a

/-- Model of `queryset.first()` on a model with no `Meta.ordering`: Django orders
by primary key ascending, so this is the element of minimal key. -/
def firstMinBy (key : α → ℕ) : List α → Option α
  | [] => none
  | a :: rest =>
    match firstMinBy key rest with
    | none => some a
    | some b => if key b < key a then some b else some a

/-- The hard-coded shared secret compared against `api_key`
(views.py lines 174, 213, 243, 274). -/
def VALID_API_KEY : String := "your_rpi_api_key_12345"

/-- The active-setpoint queryset `TemperatureSetpoint.objects.filter(is_active=True)`. -/
def Store.activeSetpoints (st : Store) : List SetpointRow :=
  st.setpoints.filter (fun r => r.is_active)

/-- The per-device queryset `DeviceControl.objects.filter(device=d)`. -/
def Store.deviceRows (st : Store) (d : String) : List DeviceRow :=
  st.devices.filter (fun r => r.device = d)

/-- Python-level exceptions that reach the `except` clauses of the two
admin views. -/
inductive PyErr where
  | jsonDecode
  | floatParse
  | multipleObjects
deriving DecidableEq

/-- Model of `data.get('setpoint', 25.0)` followed by `float(.)`
(views.py line 97): a missing field silently becomes the default `25.0`;
a present value that `float` cannot parse raises. -/
def parseSetpointField : Option JVal → Option ℚ
  | none => some 25
  | some (.num x) => some x
  | some .nonNum => none

/-- Outcome of `update_setpoint`: `JsonResponse` with `success: true`
(HTTP 200) carrying the new setpoint, or `success: false` with
`error: str(e)` and status 400. -/
inductive UpdateSetpointRes where
  | success (setpoint : ℚ)
  | error400 (e : PyErr)
deriving DecidableEq

def UpdateSetpointRes.status : UpdateSetpointRes → ℕ
  | .success _ => 200
  | .error400 _ => 400

/-- The view `update_setpoint` (views.py lines 91-118).  The body is
`none` when `json.loads` raises, otherwise the (optional) `'setpoint'`
field.  `get_or_create(is_active=True, defaults=...)` is Django's
`get` on the `is_active=True` predicate: zero matches create the row,
exactly one match returns it, and two or more raise
`MultipleObjectsReturned`, which the blanket `except` turns into a 400
response.  After the get-or-create the view always overwrites
`setpoint_temperature` and `created_by` and saves (refreshing
`updated_at`). -/
def update_setpoint (st : Store) (user : ℕ) (now : ℕ)
    (body : Option (Option JVal)) : UpdateSetpointRes × Store :=
  match body with
  | none => (.error400 .jsonDecode, st)
  | some field =>
    match parseSetpointField field with
    | none => (.error400 .floatParse, st)
    | some t =>
      match st.setpoints.filter (fun r => r.is_active) with
      | [] =>
        let row : SetpointRow :=
          { id := st.nextSetpointId, setpoint_temperature := t,
            created_by := some user, created_at := now, updated_at := now,
            is_active := true }
        (.success t,
          { st with setpoints := st.setpoints ++ [row],
                    nextSetpointId := st.nextSetpointId + 1 })
      | [r] =>
        (.success t,
          { st with setpoints := st.setpoints.map (fun s =>
              if s.id = r.id then
                { s with setpoint_temperature := t, created_by := some user,
                         updated_at := now }
              else s) })
      | _ :: _ :: _ => (.error400 .multipleObjects, st)

/-- The parsed body of `control_device`: the optional `'device'` and
`'action'` fields. -/
structure ControlBody where
  device : Option String
  action : Option String
deriving DecidableEq

/-- Outcome of `control_device`: success echo (HTTP 200), the explicit
`{'success': False, 'error': 'Invalid device'}` 400 response, or a 400
from the blanket `except`. -/
inductive ControlRes where
  | success (device : String) (stat : Bool)
  | invalidDevice
  | error400 (e : PyErr)
deriving DecidableEq

def ControlRes.status : ControlRes → ℕ
  | .success _ _ => 200
  | .invalidDevice => 400
  | .error400 _ => 400

/-- The view `control_device` (views.py lines 121-154).  A missing `'device'`
field yields `None`, which is not in `['fan', 'heater']`, so it takes the
`Invalid device` branch.  `get_or_create(device=device, defaults={'is_on':
False})` finds or creates the per-device row; the view then overwrites
`is_on` with `action == 'on'` and saves (refreshing `last_updated`). -/
def control_device (st : Store) (now : ℕ)
    (body : Option ControlBody) : ControlRes × Store :=
  match body with
  | none => (.error400 .jsonDecode, st)
  | some b =>
    match b.device with
    | none => (.invalidDevice, st)
    | some d =>
      if d = "fan" ∨ d = "heater" then
        let newOn : Bool := b.action = some "on"
        match st.devices.filter (fun r => r.device = d) with
        | [] =>
          (.success d newOn,
            { st with
              devices := st.devices ++
                [{ id := st.nextDeviceId, device := d, is_on := newOn,
                   last_updated := now }],
              nextDeviceId := st.nextDeviceId + 1 })
        | [r] =>
          (.success d newOn,
            { st with devices := st.devices.map (fun s =>
                if s.id = r.id then
                  { s with is_on := newOn, last_updated := now }
                else s) })
        | _ :: _ :: _ => (.error400 .multipleObjects, st)
      else (.invalidDevice, st)

/-- The parsed body of the sensor-push endpoint.  `request.data.get(k)`
returns `None` both for an absent key and for JSON `null`, so `none`
covers both; `api_key` defaults to the empty string. -/
structure SensorBody where
  temperature : Option JVal
  humidity : Option JVal
  api_key : String
deriving DecidableEq

/-- Outcome of `api_sensor_data`: 401 invalid key, 400 missing fields,
400 from `float(.)` raising, or 201 with the new row id and server
timestamp. -/
inductive SensorPostRes where
  | invalidKey
  | missingFields
  | parseError
  | created (data_id : ℕ) (timestamp : ℕ)
deriving DecidableEq

def SensorPostRes.status : SensorPostRes → ℕ
  | .invalidKey => 401
  | .missingFields => 400
  | .parseError => 400
  | .created _ _ => 201

def SensorPostRes.errMsg : SensorPostRes → Option String
  | .invalidKey => some "Invalid API key"
  | .missingFields => some "Missing temperature or humidity"
  | .parseError => some "could not convert to float"
  | .created _ _ => none

/-- The endpoint `api_sensor_data` (views.py lines 159-200): key check first, then the
`None`-check on both fields, then `float(.)` on each, then
`SensorData.objects.create` with an `auto_now_add` timestamp. -/
def api_sensor_data (st : Store) (now : ℕ) (body : SensorBody) :
    SensorPostRes × Store :=
  if body.api_key = VALID_API_KEY then
    match body.temperature, body.humidity with
    | none, _ => (.missingFields, st)
    | _, none => (.missingFields, st)
    | some (.num t), some (.num h) =>
      (.created st.nextSensorId now,
        { st with
          sensors := st.sensors ++
            [{ id := st.nextSensorId, temperature := t, humidity := h,
               timestamp := now }],
          nextSensorId := st.nextSensorId + 1 })
    | some _, some _ => (.parseError, st)
  else (.invalidKey, st)

/-- Outcome of `api_get_setpoint`: 401 invalid key or 200 with the
setpoint temperature and an optional `updated_at`. -/
inductive SetpointGetRes where
  | invalidKey
  | ok (setpoint_temperature : ℚ) (updated_at : Option ℕ)
deriving DecidableEq

def SetpointGetRes.status : SetpointGetRes → ℕ
  | .invalidKey => 401
  | .ok _ _ => 200

/-- The endpoint `api_get_setpoint` (views.py lines 203-230):
`filter(is_active=True).first()` under the model ordering
`['-updated_at']`; when no row matches it synthesizes
`{'setpoint_temperature': 25.0, 'updated_at': None}` without writing. -/
def api_get_setpoint (st : Store) (api_key : String) :
    SetpointGetRes × Store :=
  if api_key = VALID_API_KEY then
    match firstMaxBy (fun r => r.updated_at) st.activeSetpoints with
    | some r => (.ok r.setpoint_temperature (some r.updated_at), st)
    | none => (.ok 25 none, st)
  else (.invalidKey, st)

/-- The `{'is_on': ..., 'last_updated': ...}` object built per device by
`api_get_device_status`. -/
structure DeviceView where
  is_on : Bool
  last_updated : Option ℕ
deriving DecidableEq

/-- Model of `fan.is_on if fan else False` and `fan.last_updated if fan else None`
(views.py lines 252-261). -/
def viewOf : Option DeviceRow → DeviceView
  | some r => { is_on := r.is_on, last_updated := some r.last_updated }
  | none => { is_on := false, last_updated := none }

/-- Outcome of `api_get_device_status`: 401 invalid key or 200 with both
device views. -/
inductive DeviceStatusRes where
  | invalidKey
  | ok (fan : DeviceView) (heater : DeviceView)
deriving DecidableEq

def DeviceStatusRes.status : DeviceStatusRes → ℕ
  | .invalidKey => 401
  | .ok _ _ => 200

/-- The endpoint `api_get_device_status` (views.py lines 233-261):
`filter(device=...).first()` for each of fan and heater (no model
ordering, so first by primary key), defaulting each view when absent. -/
def api_get_device_status (st : Store) (api_key : String) :
    DeviceStatusRes × Store :=
  if api_key = VALID_API_KEY then
    (.ok (viewOf (firstMinBy (fun r => r.id) (st.deviceRows "fan")))
         (viewOf (firstMinBy (fun r => r.id) (st.deviceRows "heater"))), st)
  else (.invalidKey, st)

/-- Outcome of `api_latest_sensor_data`: 401 invalid key, 200 with the
latest reading, or 404 when the log is empty. -/
inductive LatestRes where
  | invalidKey
  | ok (temperature : ℚ) (humidity : ℚ) (timestamp : ℕ)
  | noData
deriving DecidableEq

def LatestRes.status : LatestRes → ℕ
  | .invalidKey => 401
  | .ok _ _ _ => 200
  | .noData => 404

/-- The endpoint `api_latest_sensor_data` (views.py lines 264-291):
`SensorData.objects.first()` under the model ordering `['-timestamp']`. -/
def api_latest_sensor_data (st : Store) (api_key : String) :
    LatestRes × Store :=
  if api_key = VALID_API_KEY then
    match firstMaxBy (fun r => r.timestamp) st.sensors with
    | some r => (.ok r.temperature r.humidity r.timestamp, st)
    | none => (.noData, st)
  else (.invalidKey, st)

/-- At most one `DeviceControl` row per device identifier — the
`unique_together = ('device',)` constraint. -/
def devUnique (st : Store) : Prop :=
  st.devices.Pairwise (fun a b => a.device ≠ b.device)

instance (st : Store) : Decidable (devUnique st) :=
  List.instDecidablePairwise st.devices

/-- Every stored setpoint id is below the autoincrement counter (fresh
ids for new rows). -/
def setpointIdsFresh (st : Store) : Prop :=
  ∀ r ∈ st.setpoints, r.id < st.nextSetpointId

instance (st : Store) : Decidable (setpointIdsFresh st) :=
  List.decidableBAll _ st.setpoints

/-- Setpoint primary keys are pairwise distinct. -/
def setpointIdsNodup (st : Store) : Prop :=
  st.setpoints.Pairwise (fun a b => a.id ≠ b.id)

instance (st : Store) : Decidable (setpointIdsNodup st) :=
  List.instDecidablePairwise st.setpoints

/-- At most one setpoint row is marked active. -/
def atMostOneActive (st : Store) : Prop :=
  st.activeSetpoints.length ≤ 1

instance (st : Store) : Decidable (atMostOneActive st) :=
  Nat.decLe _ _

/-- The empty store. -/
def Store.empty : Store :=
  { sensors := [], devices := [], setpoints := [],
    nextSensorId := 1, nextDeviceId := 1, nextSetpointId := 1 }

/-- The error string carried by a `control_device` failure response. -/
def ControlRes.errMsg : ControlRes → Option String
  | .success _ _ => none
  | .invalidDevice => some "Invalid device"
  | .error400 _ => some "exception text"

/-! ### Helper lemmas -/

theorem map_fix_id {f : α → α} : ∀ l : List α, (∀ a ∈ l, f a = a) → l.map f = l
  | [], _ => rfl
  | a :: l, h => by
    have ha := h a (by simp)
    have hl := map_fix_id l (fun x hx => h x (by simp [hx]))
    simp [ha, hl]

theorem firstMaxBy_append_strict (key : α → ℕ) (l : List α) (a : α)
    (h : ∀ x ∈ l, key x < key a) : firstMaxBy key (l ++ [a]) = some a := by
  induction l with
  | nil => rfl
  | cons x xs ih =>
    have hx := h x (by simp)
    have ih2 := ih (fun y hy => h y (by simp [hy]))
    simp [firstMaxBy, ih2, hx]

theorem firstMaxBy_ne_nil (key : α → ℕ) (l : List α) (h : l ≠ []) :
    ∃ a, firstMaxBy key l = some a := by
  cases l with
  | nil => exact absurd rfl h
  | cons x xs =>
    cases hxs : firstMaxBy key xs with
    | none => exact ⟨x, by simp [firstMaxBy, hxs]⟩
    | some b =>
      by_cases hlt : key x < key b
      · exact ⟨b, by simp [firstMaxBy, hxs, hlt]⟩
      · exact ⟨x, by simp [firstMaxBy, hxs, hlt]⟩

theorem firstMaxBy_mem (key : α → ℕ) :
    ∀ (l : List α) (a : α), firstMaxBy key l = some a → a ∈ l := by
  intro l
  induction l with
  | nil => intro a h; cases h
  | cons x xs ih =>
    intro a h
    cases hxs : firstMaxBy key xs with
    | none =>
      simp [firstMaxBy, hxs] at h
      simp [h]
    | some b =>
      by_cases hlt : key x < key b
      · simp [firstMaxBy, hxs, hlt] at h
        subst h
        exact List.mem_cons_of_mem x (ih b hxs)
      · simp [firstMaxBy, hxs, hlt] at h
        simp [h]

theorem firstMaxBy_isMax (key : α → ℕ) :
    ∀ (l : List α) (a : α), firstMaxBy key l = some a → ∀ x ∈ l, key x ≤ key a := by
  intro l
  induction l with
  | nil => intro a h; cases h
  | cons y ys ih =>
    intro a h x hx
    cases hys : firstMaxBy key ys with
    | none =>
      have hnil : ys = [] := by
        cases ys with
        | nil => rfl
        | cons z zs =>
          rcases firstMaxBy_ne_nil key (z :: zs) (by simp) with ⟨c, hc⟩
          rw [hys] at hc
          cases hc
      subst hnil
      simp [firstMaxBy] at h
      simp at hx
      subst hx
      simp [h]
    | some b =>
      rcases List.mem_cons.mp hx with rfl | hxys
      · by_cases hlt : key x < key b
        · simp [firstMaxBy, hys, hlt] at h
          subst h
          exact le_of_lt hlt
        · simp [firstMaxBy, hys, hlt] at h
          subst h
          exact le_refl _
      · have hb := ih b hys x hxys
        by_cases hlt : key y < key b
        · simp [firstMaxBy, hys, hlt] at h
          subst h
          exact hb
        · simp [firstMaxBy, hys, hlt] at h
          subst h
          exact le_trans hb (le_of_not_lt hlt)

theorem filter_map_of_pres (f : α → α) (p : α → Bool) (hp : ∀ a, p (f a) = p a)
    (l : List α) : (l.map f).filter p = (l.filter p).map f := by
  rw [List.filter_map]
  congr 1
  exact List.filter_congr (fun a _ => hp a)

/-! ### Claim theorems -/

/-- C3: every one of the four device-facing endpoints (sensor push,
setpoint read, device-status read, latest-reading read), called with an
`api_key` different from the configured secret, returns the 401
`Invalid API key` response and leaves the store unchanged, regardless of
the remaining body or query contents. -/
theorem invalid_key_rejected_everywhere (st : Store) (key : String)
    (hk : key ≠ VALID_API_KEY) (now : ℕ) (t h : Option JVal) :
    api_sensor_data st now ⟨t, h, key⟩ = (.invalidKey, st) ∧
    api_get_setpoint st key = (.invalidKey, st) ∧
    api_get_device_status st key = (.invalidKey, st) ∧
    api_latest_sensor_data st key = (.invalidKey, st) ∧
    SensorPostRes.invalidKey.status = 401 ∧
    SensorPostRes.invalidKey.errMsg = some "Invalid API key" ∧
    SetpointGetRes.invalidKey.status = 401 ∧
    DeviceStatusRes.invalidKey.status = 401 ∧
    LatestRes.invalidKey.status = 401 := by
  refine ⟨?_, ?_, ?_, ?_, rfl, rfl, rfl, rfl, rfl⟩ <;>
    simp [api_sensor_data, api_get_setpoint, api_get_device_status,
      api_latest_sensor_data, hk]

theorem invalid_key_rejected_everywhere_witness :
    ("wrong" ≠ VALID_API_KEY) ∧
    api_sensor_data Store.empty 3
        ⟨some (.num 25), some (.num 60), "wrong"⟩ = (.invalidKey, Store.empty) :=
  ⟨by decide,
   (invalid_key_rejected_everywhere Store.empty "wrong" (by decide) 3
      (some (.num 25)) (some (.num 60))).1⟩

/-- C5: when no setpoint row is marked active, the setpoint read endpoint
returns the synthesized default `setpoint_temperature = 25.0` with an
absent `updated_at`, and the store — in particular the setpoint table —
is returned unchanged, so nothing is persisted. -/
theorem setpoint_default_synthesized (st : Store)
    (hact : st.activeSetpoints = []) :
    api_get_setpoint st VALID_API_KEY = (.ok 25 none, st) := by
  simp [api_get_setpoint, hact, firstMaxBy]

theorem setpoint_default_synthesized_witness :
    (Store.empty.activeSetpoints = []) ∧
    api_get_setpoint Store.empty VALID_API_KEY = (.ok 25 none, Store.empty) :=
  ⟨by decide, setpoint_default_synthesized Store.empty (by decide)⟩

/-- C8: `control_device` called with a device identifier outside
`{fan, heater}` (including a missing field) returns the 400
`Invalid device` response and leaves the store — in particular the
device table — unchanged. -/
theorem invalid_device_rejected (st : Store) (now : ℕ)
    (dev act : Option String)
    (hd : ∀ d, dev = some d → d ≠ "fan" ∧ d ≠ "heater") :
    control_device st now (some ⟨dev, act⟩) = (.invalidDevice, st) ∧
    ControlRes.invalidDevice.status = 400 ∧
    ControlRes.invalidDevice.errMsg = some "Invalid device" := by
  refine ⟨?_, rfl, rfl⟩
  cases dev with
  | none => rfl
  | some d =>
    obtain ⟨h1, h2⟩ := hd d rfl
    simp [control_device, h1, h2]

theorem invalid_device_rejected_witness :
    (∀ d, (some "pump" : Option String) = some d → d ≠ "fan" ∧ d ≠ "heater") ∧
    control_device Store.empty 5 (some ⟨some "pump", some "on"⟩) =
      (.invalidDevice, Store.empty) :=
  ⟨by decide,
   (invalid_device_rejected Store.empty 5 (some "pump") (some "on") (by decide)).1⟩

/-- C6: the sensor push with the correct key but a missing (or null)
temperature or humidity field, or one on which `float(.)` fails, returns
a 400 response and leaves the store unchanged, so no `SensorData` row is
created. -/
theorem sensor_push_validation (st : Store) (now : ℕ) (t h : Option JVal)
    (hbad : ¬ ∃ x y, t = some (.num x) ∧ h = some (.num y)) :
    (api_sensor_data st now ⟨t, h, VALID_API_KEY⟩).1.status = 400 ∧
    (api_sensor_data st now ⟨t, h, VALID_API_KEY⟩).2 = st := by
  have hkey : (VALID_API_KEY = VALID_API_KEY) = True := by simp
  match t, h with
  | none, _ => exact ⟨by simp [api_sensor_data, SensorPostRes.status],
      by simp [api_sensor_data]⟩
  | some v, none =>
    cases v <;>
      exact ⟨by simp [api_sensor_data, SensorPostRes.status],
        by simp [api_sensor_data]⟩
  | some .nonNum, some w =>
    cases w <;>
      exact ⟨by simp [api_sensor_data, SensorPostRes.status],
        by simp [api_sensor_data]⟩
  | some (.num x), some .nonNum =>
    exact ⟨by simp [api_sensor_data, SensorPostRes.status],
      by simp [api_sensor_data]⟩
  | some (.num x), some (.num y) =>
    exact absurd ⟨x, y, rfl, rfl⟩ hbad

theorem sensor_push_validation_witness :
    (¬ ∃ x y, (some JVal.nonNum : Option JVal) = some (.num x) ∧
        (some (JVal.num 60) : Option JVal) = some (.num y)) ∧
    (api_sensor_data Store.empty 3
        ⟨some .nonNum, some (.num 60), VALID_API_KEY⟩).1.status = 400 :=
  ⟨(by rintro ⟨x, y, hx, hy⟩; cases hx),
   (sensor_push_validation Store.empty 3 (some .nonNum) (some (.num 60))
      (by rintro ⟨x, y, hx, hy⟩; cases hx)).1⟩

/-- C4: a sensor push with the correct key and numeric temperature and
humidity appends exactly one new `SensorData` row (all pre-existing rows
and the other tables unchanged), answers 201 with the new row's id and
the server-assigned timestamp, and an immediately following
latest-reading request returns exactly that reading.  The hypothesis
that existing readings are strictly older than `now` reflects the
server-assigned, monotone clock. -/
theorem sensor_push_roundtrip (st : Store) (now : ℕ) (t h : ℚ)
    (hnew : ∀ r ∈ st.sensors, r.timestamp < now) :
    api_sensor_data st now ⟨some (.num t), some (.num h), VALID_API_KEY⟩ =
      (.created st.nextSensorId now,
       { st with
         sensors := st.sensors ++ [⟨st.nextSensorId, t, h, now⟩],
         nextSensorId := st.nextSensorId + 1 }) ∧
    SensorPostRes.status (.created st.nextSensorId now) = 201 ∧
    (api_latest_sensor_data
        (api_sensor_data st now ⟨some (.num t), some (.num h), VALID_API_KEY⟩).2
        VALID_API_KEY).1 = .ok t h now := by
  have hstep :
      api_sensor_data st now ⟨some (.num t), some (.num h), VALID_API_KEY⟩ =
        (.created st.nextSensorId now,
         { st with
           sensors := st.sensors ++ [⟨st.nextSensorId, t, h, now⟩],
           nextSensorId := st.nextSensorId + 1 }) := by
    simp [api_sensor_data]
  refine ⟨hstep, rfl, ?_⟩
  rw [hstep]
  have hmax : firstMaxBy (fun r : SensorRow => r.timestamp)
      (st.sensors ++ [⟨st.nextSensorId, t, h, now⟩]) =
      some ⟨st.nextSensorId, t, h, now⟩ :=
    firstMaxBy_append_strict _ st.sensors _ (fun x hx => hnew x hx)
  simp [api_latest_sensor_data, hmax]

theorem sensor_push_roundtrip_witness :
    (∀ r ∈ Store.empty.sensors, r.timestamp < 9) ∧
    (api_latest_sensor_data
        (api_sensor_data Store.empty 9
          ⟨some (.num (51/2)), some (.num 60), VALID_API_KEY⟩).2
        VALID_API_KEY).1 = .ok (51/2) 60 9 :=
  ⟨(by decide),
   (sensor_push_roundtrip Store.empty 9 (51/2) 60 (by decide)).2.2⟩

/-! ### Setpoint upsert (C1) -/

/-- C1: `update_setpoint` finds the row with `is_active = true`.  When
exactly one exists (primary keys being unique), it overwrites that row's
temperature and owner in place — same position, all other rows
untouched — refreshing `updated_at`.  When none exists, it creates one
with the given temperature, owner and `is_active := true`, and a second
call with a different temperature then mutates that same row in place
(same primary key, same `created_at`, no growth of the table) rather
than creating a second active row. -/
theorem setpoint_upsert_single_active :
    (∀ st u t now r, setpointIdsNodup st → st.activeSetpoints = [r] →
      (update_setpoint st u now (some (some (.num t)))).1 = .success t ∧
      ∃ l1 l2, st.setpoints = l1 ++ r :: l2 ∧
        (update_setpoint st u now (some (some (.num t)))).2.setpoints =
          l1 ++ { r with setpoint_temperature := t, created_by := some u,
                         updated_at := now } :: l2) ∧
    (∀ st u t1 t2 n1 n2, st.activeSetpoints = [] → setpointIdsFresh st →
      (update_setpoint st u n1 (some (some (.num t1)))).1 = .success t1 ∧
      (update_setpoint st u n1 (some (some (.num t1)))).2.setpoints =
        st.setpoints ++ [⟨st.nextSetpointId, t1, some u, n1, n1, true⟩] ∧
      (update_setpoint (update_setpoint st u n1 (some (some (.num t1)))).2 u
          n2 (some (some (.num t2)))).1 = .success t2 ∧
      (update_setpoint (update_setpoint st u n1 (some (some (.num t1)))).2 u
          n2 (some (some (.num t2)))).2.setpoints =
        st.setpoints ++ [⟨st.nextSetpointId, t2, some u, n1, n2, true⟩]) := by
  constructor
  · intro st u t now r hnodup hact
    have hflt : st.setpoints.filter (fun s => s.is_active) = [r] := hact
    have hred : update_setpoint st u now (some (some (.num t))) =
        (.success t,
         { st with setpoints := st.setpoints.map (fun s =>
             if s.id = r.id then
               { s with setpoint_temperature := t, created_by := some u,
                        updated_at := now }
             else s) }) := by
      simp [update_setpoint, parseSetpointField, hflt]
    have hmem : r ∈ st.setpoints := by
      have hrf : r ∈ st.setpoints.filter (fun s => s.is_active) := by
        rw [hflt]; simp
      exact (List.mem_filter.mp hrf).1
    obtain ⟨l1, l2, hdecomp⟩ := List.append_of_mem hmem
    have hnodup2 : (l1 ++ r :: l2).Pairwise (fun a b => a.id ≠ b.id) := by
      rw [← hdecomp]; exact hnodup
    obtain ⟨hp1, hp2, hp12⟩ := List.pairwise_append.mp hnodup2
    have hl1 : ∀ a ∈ l1, a.id ≠ r.id :=
      fun a ha => hp12 a ha r (by simp)
    have hl2 : ∀ a ∈ l2, a.id ≠ r.id :=
      fun a ha => (Ne.symm ((List.pairwise_cons.mp hp2).1 a ha))
    refine ⟨by rw [hred], l1, l2, hdecomp, ?_⟩
    rw [hred]
    show st.setpoints.map (fun s =>
        if s.id = r.id then
          { s with setpoint_temperature := t, created_by := some u,
                   updated_at := now }
        else s) = _
    rw [hdecomp, List.map_append, List.map_cons]
    rw [map_fix_id l1 (fun a ha => by simp [hl1 a ha])]
    rw [map_fix_id l2 (fun a ha => by simp [hl2 a ha])]
    simp
  · intro st u t1 t2 n1 n2 hact hfresh
    have hact2 : st.setpoints.filter (fun r => r.is_active) = [] := hact
    have h1 : update_setpoint st u n1 (some (some (.num t1))) =
        (.success t1,
         { st with
           setpoints := st.setpoints ++
             [⟨st.nextSetpointId, t1, some u, n1, n1, true⟩],
           nextSetpointId := st.nextSetpointId + 1 }) := by
      simp [update_setpoint, parseSetpointField, hact2]
    have hfilter1 :
        (st.setpoints ++
          [(⟨st.nextSetpointId, t1, some u, n1, n1, true⟩ : SetpointRow)]).filter
          (fun r => r.is_active) =
        [⟨st.nextSetpointId, t1, some u, n1, n1, true⟩] := by
      simp [List.filter_append, hact2]
    have hmap :
        (st.setpoints ++
          [(⟨st.nextSetpointId, t1, some u, n1, n1, true⟩ : SetpointRow)]).map
          (fun s => if s.id = st.nextSetpointId then
              { s with setpoint_temperature := t2, created_by := some u,
                       updated_at := n2 }
            else s) =
        st.setpoints ++ [⟨st.nextSetpointId, t2, some u, n1, n2, true⟩] := by
      rw [List.map_append]
      congr 1
      · exact map_fix_id st.setpoints (fun a ha => by
          have hlt := hfresh a ha
          simp [Nat.ne_of_lt hlt])
      · simp
    have h2 : update_setpoint
        (update_setpoint st u n1 (some (some (.num t1)))).2 u n2
        (some (some (.num t2))) =
        (.success t2,
         { st with
           setpoints := st.setpoints ++
             [⟨st.nextSetpointId, t2, some u, n1, n2, true⟩],
           nextSetpointId := st.nextSetpointId + 1 }) := by
      rw [h1]
      simp only [update_setpoint, parseSetpointField, hfilter1, hmap]
    exact ⟨by rw [h1], by rw [h1], by rw [h2], by rw [h2]⟩

theorem setpoint_upsert_single_active_witness :
    (Store.empty.activeSetpoints = []) ∧ setpointIdsFresh Store.empty ∧
    (update_setpoint
        (update_setpoint Store.empty 7 1 (some (some (.num (55/2))))).2 7 2
        (some (some (.num 30)))).2.setpoints =
      Store.empty.setpoints ++
        [⟨Store.empty.nextSetpointId, 30, some 7, 1, 2, true⟩] :=
  ⟨by decide, by decide,
   (setpoint_upsert_single_active.2 Store.empty 7 (55/2) 30 1 2 (by decide)
      (by decide)).2.2.2⟩

/-! ### Device upsert (C2) -/

theorem filter_device_len_le {l : List DeviceRow}
    (hu : l.Pairwise (fun a b => a.device ≠ b.device)) (d : String) :
    (l.filter (fun r => r.device = d)).length ≤ 1 := by
  induction l with
  | nil => simp
  | cons x xs ih =>
    rcases List.pairwise_cons.mp hu with ⟨hx, hxs⟩
    by_cases hxd : x.device = d
    · have hrest : xs.filter (fun r => r.device = d) = [] := by
        refine List.filter_eq_nil_iff.mpr (fun a ha => ?_)
        have hne := hx a ha
        rw [hxd] at hne
        simp [Ne.symm hne]
      simp [List.filter_cons, hxd, hrest]
    · simpa [List.filter_cons, hxd] using ih hxs

theorem deviceRows_len_le (st : Store) (hu : devUnique st) (d : String) :
    (st.deviceRows d).length ≤ 1 :=
  filter_device_len_le hu d

/-- Effect of a `control_device` call with a valid device on a store
satisfying the uniqueness invariant: the response echoes the new state
and afterwards the device has exactly one row, holding
`is_on = (action == 'on')` and `last_updated = now`. -/
theorem control_device_valid_effect (st : Store) (hu : devUnique st)
    (now : ℕ) (d : String) (hd : d = "fan" ∨ d = "heater")
    (act : Option String) :
    ∃ i, (control_device st now (some ⟨some d, act⟩)).1 =
        .success d (decide (act = some "on")) ∧
      (control_device st now (some ⟨some d, act⟩)).2.deviceRows d =
        [⟨i, d, decide (act = some "on"), now⟩] := by
  cases hflt : st.devices.filter (fun r => r.device = d) with
  | nil =>
    have hred : control_device st now (some ⟨some d, act⟩) =
        (.success d (decide (act = some "on")),
         { st with
           devices := st.devices ++
             [⟨st.nextDeviceId, d, decide (act = some "on"), now⟩],
           nextDeviceId := st.nextDeviceId + 1 }) := by
      simp [control_device, hflt, hd]
    refine ⟨st.nextDeviceId, by rw [hred], ?_⟩
    rw [hred]
    show ((st.devices ++
        [(⟨st.nextDeviceId, d, decide (act = some "on"), now⟩ :
          DeviceRow)]).filter (fun r => r.device = d)) = _
    simp [List.filter_append, hflt]
  | cons r tail =>
    cases tail with
    | nil =>
      have hrd : r.device = d := by
        have hr : r ∈ st.devices.filter (fun r2 => r2.device = d) := by
          rw [hflt]; simp
        simpa using (List.mem_filter.mp hr).2
      have hpres : ∀ a : DeviceRow,
          ((fun s => if s.id = r.id then
              { s with is_on := decide (act = some "on"), last_updated := now }
            else s) a).device = a.device := by
        intro a
        by_cases hia : a.id = r.id <;> simp [hia]
      have hred : control_device st now (some ⟨some d, act⟩) =
          (.success d (decide (act = some "on")),
           { st with devices := st.devices.map (fun s =>
               if s.id = r.id then
                 { s with is_on := decide (act = some "on"),
                          last_updated := now }
               else s) }) := by
        simp [control_device, hflt, hd]
      refine ⟨r.id, by rw [hred], ?_⟩
      rw [hred]
      show ((st.devices.map (fun s =>
          if s.id = r.id then
            { s with is_on := decide (act = some "on"), last_updated := now }
          else s)).filter (fun r2 => r2.device = d)) = _
      rw [filter_map_of_pres _ _ (fun a => by simp [hpres a]), hflt]
      simp [hrd]
    | cons b rest =>
      exfalso
      have hle := deviceRows_len_le st hu d
      rw [Store.deviceRows, hflt] at hle
      simp at hle

/-- Preservation of the one-row-per-device invariant by any
`control_device` call. -/
theorem control_device_preserves_unique (st : Store) (now : ℕ)
    (body : Option ControlBody) (hu : devUnique st) :
    devUnique (control_device st now body).2 := by
  match body with
  | none => exact hu
  | some b =>
    match hb : b.device with
    | none => simpa [control_device, hb] using hu
    | some d =>
      by_cases hif : d = "fan" ∨ d = "heater"
      · cases hflt : st.devices.filter (fun r => r.device = d) with
        | nil =>
          have hnew : ∀ x ∈ st.devices, x.device ≠ d := by
            intro x hx
            simpa using List.filter_eq_nil_iff.mp hflt x hx
          have hred : (control_device st now (some b)).2 =
              { st with
                devices := st.devices ++
                  [⟨st.nextDeviceId, d, decide (b.action = some "on"), now⟩],
                nextDeviceId := st.nextDeviceId + 1 } := by
            simp [control_device, hb, hflt, hif]
          rw [hred]
          show (st.devices ++
              [(⟨st.nextDeviceId, d, decide (b.action = some "on"), now⟩ :
                DeviceRow)]).Pairwise (fun a b2 => a.device ≠ b2.device)
          rw [List.pairwise_append]
          refine ⟨hu, by simp, ?_⟩
          intro x hx y hy
          simp only [List.mem_singleton] at hy
          subst hy
          simpa using hnew x hx
        | cons r tail =>
          cases tail with
          | nil =>
            have hpres : ∀ a : DeviceRow,
                ((fun s => if s.id = r.id then
                    { s with is_on := decide (b.action = some "on"),
                             last_updated := now }
                  else s) a).device = a.device := by
              intro a
              by_cases hia : a.id = r.id <;> simp [hia]
            have hred : (control_device st now (some b)).2 =
                { st with devices := st.devices.map (fun s =>
                    if s.id = r.id then
                      { s with is_on := decide (b.action = some "on"),
                               last_updated := now }
                    else s) } := by
              simp [control_device, hb, hflt, hif]
            rw [hred]
            show (st.devices.map (fun s =>
                if s.id = r.id then
                  { s with is_on := decide (b.action = some "on"),
                           last_updated := now }
                else s)).Pairwise (fun a b2 => a.device ≠ b2.device)
            rw [List.pairwise_map]
            exact hu.imp (fun hab => by simpa [hpres] using hab)
          | cons b2 rest =>
            simpa [control_device, hb, hif, hflt] using hu
      · simpa [control_device, hb, hif] using hu

/-- C2: the store keeps at most one `DeviceControl` row per device
identifier across any `control_device` call (idempotent upsert), and in
particular turning the fan on yields `is_on = true` from the
device-status endpoint while a repeated call leaves the fan's row count
at one. -/
theorem device_upsert_idempotent :
    (∀ st now body, devUnique st → devUnique (control_device st now body).2) ∧
    (∀ st n1 n2, devUnique st →
      ((control_device st n1 (some ⟨some "fan", some "on"⟩)).2.deviceRows
          "fan").length = 1 ∧
      (∃ hv, (api_get_device_status
          (control_device st n1 (some ⟨some "fan", some "on"⟩)).2
          VALID_API_KEY).1 = .ok ⟨true, some n1⟩ hv) ∧
      ((control_device
          (control_device st n1 (some ⟨some "fan", some "on"⟩)).2 n2
          (some ⟨some "fan", some "on"⟩)).2.deviceRows "fan").length = 1) := by
  refine ⟨fun st now body hu => control_device_preserves_unique st now body hu,
    fun st n1 n2 hu => ?_⟩
  have hu1 : devUnique (control_device st n1 (some ⟨some "fan", some "on"⟩)).2 :=
    control_device_preserves_unique st n1 _ hu
  obtain ⟨i, _, hrows1⟩ := control_device_valid_effect st hu n1 "fan"
    (Or.inl rfl) (some "on")
  obtain ⟨j, _, hrows2⟩ := control_device_valid_effect
    (control_device st n1 (some ⟨some "fan", some "on"⟩)).2 hu1 n2 "fan"
    (Or.inl rfl) (some "on")
  refine ⟨by rw [hrows1]; rfl, ?_, by rw [hrows2]; rfl⟩
  refine ⟨viewOf (firstMinBy (fun r => r.id)
    ((control_device st n1 (some ⟨some "fan", some "on"⟩)).2.deviceRows
      "heater")), ?_⟩
  simp [api_get_device_status, hrows1, firstMinBy, viewOf]

theorem device_upsert_idempotent_witness :
    devUnique Store.empty ∧
    ((control_device
        (control_device Store.empty 4 (some ⟨some "fan", some "on"⟩)).2 5
        (some ⟨some "fan", some "on"⟩)).2.deviceRows "fan").length = 1 :=
  ⟨by decide, (device_upsert_idempotent.2 Store.empty 4 5 (by decide)).2.2⟩

/-! ### Device status reads (C7) -/

/-- C7: the device-status endpoint reports, for each of fan and heater,
the stored `{is_on, last_updated}` pair when that device's row exists and
the default `{is_on: false, last_updated: absent}` when it does not, and
it never modifies the store (so no row is created). -/
theorem device_status_reads (st : Store) :
    (api_get_device_status st VALID_API_KEY).2 = st ∧
    (∀ r, st.deviceRows "fan" = [r] →
      ∃ hv, (api_get_device_status st VALID_API_KEY).1 =
        .ok ⟨r.is_on, some r.last_updated⟩ hv) ∧
    (st.deviceRows "fan" = [] →
      ∃ hv, (api_get_device_status st VALID_API_KEY).1 =
        .ok ⟨false, none⟩ hv) ∧
    (∀ r, st.deviceRows "heater" = [r] →
      ∃ fv, (api_get_device_status st VALID_API_KEY).1 =
        .ok fv ⟨r.is_on, some r.last_updated⟩) ∧
    (st.deviceRows "heater" = [] →
      ∃ fv, (api_get_device_status st VALID_API_KEY).1 =
        .ok fv ⟨false, none⟩) := by
  refine ⟨by simp [api_get_device_status], ?_, ?_, ?_, ?_⟩
  · intro r hr
    exact ⟨viewOf (firstMinBy (fun r2 => r2.id) (st.deviceRows "heater")),
      by simp [api_get_device_status, hr, firstMinBy, viewOf]⟩
  · intro hr
    exact ⟨viewOf (firstMinBy (fun r2 => r2.id) (st.deviceRows "heater")),
      by simp [api_get_device_status, hr, firstMinBy, viewOf]⟩
  · intro r hr
    exact ⟨viewOf (firstMinBy (fun r2 => r2.id) (st.deviceRows "fan")),
      by simp [api_get_device_status, hr, firstMinBy, viewOf]⟩
  · intro hr
    exact ⟨viewOf (firstMinBy (fun r2 => r2.id) (st.deviceRows "fan")),
      by simp [api_get_device_status, hr, firstMinBy, viewOf]⟩

theorem device_status_reads_witness :
    ({ sensors := [], devices := [⟨1, "fan", true, 5⟩], setpoints := [],
       nextSensorId := 1, nextDeviceId := 2, nextSetpointId := 1 } :
        Store).deviceRows "fan" = [⟨1, "fan", true, 5⟩] ∧
    ∃ hv, (api_get_device_status
        { sensors := [], devices := [⟨1, "fan", true, 5⟩], setpoints := [],
          nextSensorId := 1, nextDeviceId := 2, nextSetpointId := 1 }
        VALID_API_KEY).1 = .ok ⟨true, some 5⟩ hv :=
  ⟨by decide, (device_status_reads _).2.1 ⟨1, "fan", true, 5⟩ (by decide)⟩

/-! ### Multiple active setpoint rows (C9) -/

/-- A store holding two setpoint rows both marked `is_active = true`
(primary keys 1 and 2, updated at times 5 and 10). -/
def twoActiveStore : Store :=
  { sensors := [], devices := [],
    setpoints := [⟨1, 26, none, 0, 5, true⟩, ⟨2, 28, none, 0, 10, true⟩],
    nextSensorId := 1, nextDeviceId := 1, nextSetpointId := 3 }

/-- Counterexample to C9 as stated: with two active rows, the setpoint
upsert does not overwrite the most recently updated active row (id 2,
`updated_at = 10`); `get_or_create` raises `MultipleObjectsReturned`, so
`update_setpoint` returns the 400 error response and no row's
temperature becomes the requested 30. -/
theorem setpoint_multi_active_cex :
    update_setpoint twoActiveStore 7 20 (some (some (.num 30))) =
      (.error400 .multipleObjects, twoActiveStore) ∧
    ¬ ∃ r ∈ (update_setpoint twoActiveStore 7 20
        (some (some (.num 30)))).2.setpoints,
        r.id = 2 ∧ r.setpoint_temperature = 30 := by
  constructor
  · decide
  · decide

/-- C9 amended: when several rows are marked active, the setpoint read
endpoint returns an active row of maximal `updated_at` (the most
recently updated one when the timestamps are distinct) and leaves the
store unchanged; the setpoint upsert, however, does not overwrite that
row — `get_or_create` on `is_active=True` raises
`MultipleObjectsReturned`, so `update_setpoint` answers with the 400
error response and every row is left unchanged. -/
theorem setpoint_multi_active_amended :
    (∀ st, st.activeSetpoints ≠ [] →
      ∃ r ∈ st.activeSetpoints,
        (∀ s ∈ st.activeSetpoints, s.updated_at ≤ r.updated_at) ∧
        api_get_setpoint st VALID_API_KEY =
          (.ok r.setpoint_temperature (some r.updated_at), st)) ∧
    (∀ st u now v, 2 ≤ st.activeSetpoints.length →
      update_setpoint st u now (some (some (.num v))) =
        (.error400 .multipleObjects, st)) := by
  constructor
  · intro st hne
    obtain ⟨r, hr⟩ :=
      firstMaxBy_ne_nil (fun s => s.updated_at) st.activeSetpoints hne
    refine ⟨r, firstMaxBy_mem _ _ _ hr, firstMaxBy_isMax _ _ _ hr, ?_⟩
    simp [api_get_setpoint, hr]
  · intro st u now v hlen
    cases hflt : st.setpoints.filter (fun r => r.is_active) with
    | nil =>
      simp only [Store.activeSetpoints, hflt] at hlen
      simp at hlen
    | cons a tail =>
      cases tail with
      | nil =>
        simp only [Store.activeSetpoints, hflt] at hlen
        simp at hlen
      | cons b rest =>
        simp [update_setpoint, parseSetpointField, hflt]

theorem setpoint_multi_active_amended_witness :
    (twoActiveStore.activeSetpoints ≠ []) ∧
    (2 ≤ twoActiveStore.activeSetpoints.length) ∧
    update_setpoint twoActiveStore 7 20 (some (some (.num 30))) =
      (.error400 .multipleObjects, twoActiveStore) :=
  ⟨by decide, by decide,
   setpoint_multi_active_amended.2 twoActiveStore 7 20 30 (by decide)⟩

/-! ### Missing setpoint field (C10) -/

/-- On a store with at most one active row, a body whose `'setpoint'`
field parses (or is absent, yielding the default) always succeeds, and
afterwards the single active row carries the parsed temperature. -/
theorem update_setpoint_num_success (st : Store) (u now : ℕ) (t : ℚ)
    (hone : atMostOneActive st) (field : Option JVal)
    (hf : parseSetpointField field = some t) :
    (update_setpoint st u now (some field)).1 = .success t ∧
    (update_setpoint st u now (some field)).2.activeSetpoints.map
      (fun r => r.setpoint_temperature) = [t] := by
  cases hflt : st.setpoints.filter (fun r => r.is_active) with
  | nil =>
    have hred : update_setpoint st u now (some field) =
        (.success t,
         { st with
           setpoints := st.setpoints ++
             [⟨st.nextSetpointId, t, some u, now, now, true⟩],
           nextSetpointId := st.nextSetpointId + 1 }) := by
      simp [update_setpoint, hf, hflt]
    rw [hred]
    refine ⟨rfl, ?_⟩
    show (((st.setpoints ++
        [(⟨st.nextSetpointId, t, some u, now, now, true⟩ :
          SetpointRow)]).filter (fun r => r.is_active)).map
      (fun r => r.setpoint_temperature)) = [t]
    simp [List.filter_append, hflt]
  | cons r tail =>
    cases tail with
    | nil =>
      have hpres : ∀ a : SetpointRow,
          ((fun s => if s.id = r.id then
              { s with setpoint_temperature := t, created_by := some u,
                       updated_at := now }
            else s) a).is_active = a.is_active := by
        intro a
        by_cases hia : a.id = r.id <;> simp [hia]
      have hred : update_setpoint st u now (some field) =
          (.success t,
           { st with setpoints := st.setpoints.map (fun s =>
               if s.id = r.id then
                 { s with setpoint_temperature := t, created_by := some u,
                          updated_at := now }
               else s) }) := by
        simp [update_setpoint, hf, hflt]
      rw [hred]
      refine ⟨rfl, ?_⟩
      show (((st.setpoints.map (fun s =>
          if s.id = r.id then
            { s with setpoint_temperature := t, created_by := some u,
                     updated_at := now }
          else s)).filter (fun r2 => r2.is_active)).map
        (fun r2 => r2.setpoint_temperature)) = [t]
      rw [filter_map_of_pres _ _ (fun a => by simp [hpres a]), hflt]
      simp
    | cons b rest =>
      exfalso
      simp only [atMostOneActive, Store.activeSetpoints, hflt] at hone
      simp at hone

/-- C10: with at most one active row, `update_setpoint` on a JSON body
that lacks the `'setpoint'` field does not fail — it silently applies
the default 25.0, sets the active setpoint's temperature to 25.0 and
returns success; a 400 error arises exactly when the body is not valid
JSON or when a present `'setpoint'` value cannot be parsed as a
number. -/
theorem setpoint_missing_field_defaults (st : Store) (u now : ℕ)
    (hone : atMostOneActive st) :
    ((update_setpoint st u now (some none)).1 = .success 25 ∧
     (update_setpoint st u now (some none)).2.activeSetpoints.map
       (fun r => r.setpoint_temperature) = [25]) ∧
    (∀ body, (update_setpoint st u now body).1.status = 400 ↔
      (body = none ∨ body = some (some .nonNum))) := by
  refine ⟨update_setpoint_num_success st u now 25 hone none rfl,
    fun body => ?_⟩
  match body with
  | none => simp [update_setpoint, UpdateSetpointRes.status]
  | some none =>
    have h := (update_setpoint_num_success st u now 25 hone none rfl).1
    simp [h, UpdateSetpointRes.status]
  | some (some (.num x)) =>
    have h :=
      (update_setpoint_num_success st u now x hone (some (.num x)) rfl).1
    simp [h, UpdateSetpointRes.status]
  | some (some .nonNum) =>
    simp [update_setpoint, parseSetpointField, UpdateSetpointRes.status]

theorem setpoint_missing_field_defaults_witness :
    atMostOneActive Store.empty ∧
    (update_setpoint Store.empty 7 3 (some none)).1 = .success 25 :=
  ⟨by decide, (setpoint_missing_field_defaults Store.empty 7 3 (by decide)).1.1⟩
